import Mathlib

/-!
Verification of the `secretstore-private-tx` client library.

The development shallowly embeds the four source modules:

* `src/utils.js`              — hex-prefix and quote-stripping helpers;
* `src/secretstore/session.js` — HTTP session facade (error class
  `SecretStoreSessionError`);
* `src/secretstore.js`        — JSON-RPC facade plus a second copy of the
  HTTP session facade (error class `SSRequestError`);
* `src/private/private.js`    — private-transaction JSON-RPC facade.

JavaScript strings are modelled as Lean `String`s, with the character-level
operations (`startsWith`, `slice`, the anchored regex of
`removeEnclosingDQuotes`) expressed over the underlying `List Char`; the
relevant inputs are ASCII, where JS code units and Lean characters agree.
Each facade operation takes its network collaborator (the `request` HTTP
client, or `web3.currentProvider.send`) as an explicit function argument and
returns the request(s) it issued together with how the promise settles.  The
callbacks registered with those collaborators are embedded branch by branch,
including the fact that reading the undeclared variable `e` in the HTTP
facades' connection-error branch throws a `ReferenceError`, which escapes the
callback and leaves the promise forever pending.
-/

/-! ## `src/utils.js` -/

/-- A JavaScript value as it reaches `remove0x`: the code distinguishes only
`undefined`, `null`, and everything else (coerced with `toString`; for the
string arguments used throughout the library that coercion is the
identity). -/
inductive JsValue where
  | undefinedV : JsValue
  | nullV : JsValue
  | str (s : String) : JsValue
deriving DecidableEq, Repr

/-- `utils.remove0x`: `undefined`/`null` become `""`; otherwise the value is
coerced to a string and a leading two-character `0x` is sliced off.
`str.startsWith("0x")` is the check that the first two code units are `0`
then `x`, i.e. `s.data.take 2 = ['0', 'x']`, and `str.slice(2)` then drops
those two units. -/
def remove0x : JsValue → String
  | JsValue.undefinedV => ""
  | JsValue.nullV => ""
  | JsValue.str s =>
      if s.data.take 2 = ['0', 'x'] then String.mk (s.data.drop 2) else s

/-- `utils.add0x`: prepend `"0x"` unless the string already starts with it. -/
def add0x (s : String) : String :=
  if s.data.take 2 = ['0', 'x'] then s else "0x" ++ s

/-- The four characters that JavaScript's `.` (without the `s` flag) refuses
to match: LF, CR, LINE SEPARATOR and PARAGRAPH SEPARATOR. -/
def jsLineTerminator (c : Char) : Bool :=
  c = '\n' || c = '\r' || c = '\u2028' || c = '\u2029'

/-- `utils.removeEnclosingDQuotes`, i.e. `str.replace(/^"(.*)"$/, '$1')`.
The anchored pattern matches exactly when the string has at least two
characters, begins and ends with `"`, and every character in between is one
`.` can match (no line terminator); the replacement is then the middle.
Otherwise `replace` returns the string unchanged. -/
def removeEnclosingDQuotes (s : String) : String :=
  match s.data with
  | '"' :: rest =>
      if rest.getLast? = some '"' ∧ rest.dropLast.all (fun c => !jsLineTerminator c) then
        String.mk rest.dropLast
      else s
  | _ => s

/-! ## JSON.stringify for arrays of strings (used by `nodesSetChange`) -/

/-- Lower-case hexadecimal digit, as produced by JavaScript's JSON escapes. -/
def hexDigit (n : Nat) : Char :=
  if n < 10 then Char.ofNat (48 + n) else Char.ofNat (87 + n)

/-- The escape JSON.stringify applies to one character of a string. -/
def jsonEscapeChar (c : Char) : String :=
  if c = '"' then "\\\""
  else if c = '\\' then "\\\\"
  else if c = '\x08' then "\\b"
  else if c = '\t' then "\\t"
  else if c = '\n' then "\\n"
  else if c = '\x0c' then "\\f"
  else if c = '\r' then "\\r"
  else if c.toNat < 0x20 then
    "\\u00" ++ String.mk [hexDigit (c.toNat / 16), hexDigit (c.toNat % 16)]
  else String.singleton c

/-- JSON.stringify of a single string. -/
def jsonQuoteString (s : String) : String :=
  "\"" ++ String.join (s.data.map jsonEscapeChar) ++ "\""

/-- JSON.stringify of an array of strings (no whitespace is inserted). -/
def jsonStringify (xs : List String) : String :=
  "[" ++ String.intercalate "," (xs.map jsonQuoteString) ++ "]"

/-! ## The HTTP session layer

Both `src/secretstore/session.js` and the HTTP half of `src/secretstore.js`
call the `request` library as `request(options, (error, response, body) =>
...)` with a literal options object holding a URL, a method and (for
`nodesSetChange` only) a body.  The interface the spec assigns to that
collaborator is `(error, response with statusCode and statusMessage,
body : string)`. -/

/-- The response the HTTP client hands to the callback. -/
structure HttpResponse where
  statusCode : Nat
  statusMessage : String
deriving DecidableEq, Repr

/-- The options object passed to `request`. -/
structure ReqOptions where
  url : String
  method : String
  reqBody : Option String := none
deriving DecidableEq, Repr

/-- What an HTTP client does: for the options it is given, either a
connection error (`some e`) or a response and a body. -/
def HttpClient (ε : Type) := ReqOptions → Option ε × HttpResponse × String

/-- The value an HTTP session promise resolves with: a plain string (the
body, possibly unquoted), or the result of `JSON.parse` on the body for the
shadow-retrieval endpoint.  The `jsonOf` constructor records the body that
`JSON.parse` receives; the parse itself adds nothing to the properties
proved here, since both modules apply it to the same body. -/
inductive SessionValue where
  | str (s : String) : SessionValue
  | jsonOf (body : String) : SessionValue
deriving DecidableEq, Repr

/-- The error classes `SecretStoreSessionError` (session.js) and
`SSRequestError` (secretstore.js): `super(message)` stores the message, the
constructor stores the response and its class name.  Note that neither the
body nor the request options are stored. -/
structure SessionError where
  message : String
  response : HttpResponse
  name : String
deriving DecidableEq, Repr

/-- How an HTTP session promise settles.  `callbackThrewReferenceError`
records the branch in which the callback evaluates the undeclared variable
`e`: a `ReferenceError` is thrown out of the callback before `reject` runs,
so the promise never settles. -/
inductive SessionOutcome (ε : Type) where
  | resolved (v : SessionValue) : SessionOutcome ε
  | rejectedTransport (e : ε) : SessionOutcome ε
  | rejectedSession (err : SessionError) : SessionOutcome ε
  | callbackThrewReferenceError : SessionOutcome ε
deriving DecidableEq, Repr

/-- The callback `(error, response, body) => ...` shared verbatim by every
HTTP operation in both modules, up to the error class name `errName` and the
success mapping `success` (`removeEnclosingDQuotes`, the identity, or
`JSON.parse`).  On a connection error the code runs
`if (verbose) utils.logError(e); reject(error);` — the callback's parameter
is named `error`, so when `verbose` is true the read of `e` throws a
`ReferenceError` and `reject` is never reached; when `verbose` is false the
guarded statement is skipped and the error object itself is rejected.  On a
non-200 status the (well-formed) diagnostic logging runs when `verbose`, and
a fresh session error wrapping the response is rejected.  Otherwise the
mapped body is resolved. -/
def sessionCallback {ε : Type} (errName : String) (success : String → SessionValue)
    (verbose : Bool) (error : Option ε) (response : HttpResponse) (body : String) :
    SessionOutcome ε :=
  match error with
  | some err => if verbose then SessionOutcome.callbackThrewReferenceError
                else SessionOutcome.rejectedTransport err
  | none =>
      if response.statusCode != 200 then
        SessionOutcome.rejectedSession
          { message := "Request failed.", response := response, name := errName }
      else
        SessionOutcome.resolved (success body)

/-- The success mapping of the quoted-string endpoints. -/
def unquoteValue (body : String) : SessionValue :=
  SessionValue.str (removeEnclosingDQuotes body)

/-- The success mapping of `storeDocumentKey` (raw body). -/
def rawValue (body : String) : SessionValue :=
  SessionValue.str body

/-- Issue one request with the given options against the client and classify
the outcome with the shared callback; returns the list of requests issued
(always exactly this one) paired with the settlement. -/
def runSession {ε : Type} (errName : String) (success : String → SessionValue)
    (options : ReqOptions) (verbose : Bool) (client : HttpClient ε) :
    List ReqOptions × SessionOutcome ε :=
  let r := client options
  ([options], sessionCallback errName success verbose r.1 r.2.1 r.2.2)

/-! ## `src/secretstore/session.js` — HTTP session facade -/

namespace SessionJs

variable {ε : Type}

/-- Server key generation session: POST `<url>/shadow/<id>/<signedId>/<threshold>`,
resolving the unquoted body. -/
def generateServerKey (url serverKeyID signedServerKeyID : String) (threshold : Int)
    (verbose : Bool) (client : HttpClient ε) : List ReqOptions × SessionOutcome ε :=
  runSession "SecretStoreSessionError" unquoteValue
    { url := url ++ "/shadow/" ++ remove0x (JsValue.str serverKeyID) ++ "/"
        ++ remove0x (JsValue.str signedServerKeyID) ++ "/" ++ toString threshold,
      method := "POST" } verbose client

/-- Combined server and document key generation: POST
`<url>/<id>/<signedId>/<threshold>`, resolving the unquoted body. -/
def generateServerAndDocumentKey (url serverKeyID signedServerKeyID : String)
    (threshold : Int) (verbose : Bool) (client : HttpClient ε) :
    List ReqOptions × SessionOutcome ε :=
  runSession "SecretStoreSessionError" unquoteValue
    { url := url ++ "/" ++ remove0x (JsValue.str serverKeyID) ++ "/"
        ++ remove0x (JsValue.str signedServerKeyID) ++ "/" ++ toString threshold,
      method := "POST" } verbose client

/-- Document key shadow retrieval: GET `<url>/shadow/<id>/<signedId>`,
resolving `JSON.parse(body)`. -/
def shadowRetrieveDocumentKey (url serverKeyID signedServerKeyID : String)
    (verbose : Bool) (client : HttpClient ε) : List ReqOptions × SessionOutcome ε :=
  runSession "SecretStoreSessionError" SessionValue.jsonOf
    { url := url ++ "/shadow/" ++ remove0x (JsValue.str serverKeyID) ++ "/"
        ++ remove0x (JsValue.str signedServerKeyID),
      method := "GET" } verbose client

/-- Document key retrieval: GET `<url>/<id>/<signedId>`, resolving the
unquoted body. -/
def retrieveDocumentKey (url serverKeyID signedServerKeyID : String)
    (verbose : Bool) (client : HttpClient ε) : List ReqOptions × SessionOutcome ε :=
  runSession "SecretStoreSessionError" unquoteValue
    { url := url ++ "/" ++ remove0x (JsValue.str serverKeyID) ++ "/"
        ++ remove0x (JsValue.str signedServerKeyID),
      method := "GET" } verbose client

/-- Schnorr signing session: GET `<url>/schnorr/<id>/<signedId>/<messageHash>`;
note that `messageHash` is concatenated as given, without `remove0x`. -/
def signSchnorr (url serverKeyID signedServerKeyID messageHash : String)
    (verbose : Bool) (client : HttpClient ε) : List ReqOptions × SessionOutcome ε :=
  runSession "SecretStoreSessionError" unquoteValue
    { url := url ++ "/schnorr/" ++ remove0x (JsValue.str serverKeyID) ++ "/"
        ++ remove0x (JsValue.str signedServerKeyID) ++ "/" ++ messageHash,
      method := "GET" } verbose client

/-- ECDSA signing session: GET `<url>/ecdsa/<id>/<signedId>/<messageHash>`;
as in `signSchnorr`, `messageHash` is concatenated as given. -/
def signEcdsa (url serverKeyID signedServerKeyID messageHash : String)
    (verbose : Bool) (client : HttpClient ε) : List ReqOptions × SessionOutcome ε :=
  runSession "SecretStoreSessionError" unquoteValue
    { url := url ++ "/ecdsa/" ++ remove0x (JsValue.str serverKeyID) ++ "/"
        ++ remove0x (JsValue.str signedServerKeyID) ++ "/" ++ messageHash,
      method := "GET" } verbose client

/-- Document key store session: POST
`<url>/shadow/<id>/<signedId>/<commonPoint>/<encryptedPoint>`, resolving the
raw body. -/
def storeDocumentKey (url serverKeyID signedServerKeyID commonPoint encryptedPoint : String)
    (verbose : Bool) (client : HttpClient ε) : List ReqOptions × SessionOutcome ε :=
  runSession "SecretStoreSessionError" rawValue
    { url := url ++ "/shadow/" ++ remove0x (JsValue.str serverKeyID)
        ++ "/" ++ remove0x (JsValue.str signedServerKeyID)
        ++ "/" ++ remove0x (JsValue.str commonPoint)
        ++ "/" ++ remove0x (JsValue.str encryptedPoint),
      method := "POST" } verbose client

/-- Nodes set change session: POST
`<url>/admin/servers_set_change/<sigOld>/<sigNew>` with the JSON-serialized
new node set as request body, resolving the unquoted body. -/
def nodesSetChange (url : String) (nodeIDsNewSet : List String)
    (signatureOldSet signatureNewSet : String) (verbose : Bool)
    (client : HttpClient ε) : List ReqOptions × SessionOutcome ε :=
  runSession "SecretStoreSessionError" unquoteValue
    { url := url ++ "/admin/servers_set_change"
        ++ "/" ++ remove0x (JsValue.str signatureOldSet)
        ++ "/" ++ remove0x (JsValue.str signatureNewSet),
      method := "POST",
      reqBody := some (jsonStringify nodeIDsNewSet) } verbose client

end SessionJs

/-! ## The JSON-RPC layer

The RPC facades call `web3.currentProvider.send(envelope, (e, r) => ...)`.
The envelope is `\x7bjsonrpc: '2.0', method, params, id: 1\x7d`; the response
`r` carries an optional `error` field (absence modelled as `none`, i.e. the
JavaScript `undefined` that `r.error !== undefined` tests for) and a `result`
field that this layer passes through without inspection (hence its type is a
parameter). -/

/-- An RPC-level error as delivered in the response envelope. -/
structure RpcError where
  code : Int
  message : String
deriving DecidableEq, Repr

/-- The response envelope: `error` (`none` when the field is undefined) and
`result`. -/
structure RpcResponse (ρ : Type) where
  error : Option RpcError
  result : ρ
deriving DecidableEq, Repr

/-- One position of a `params` array: a string, an array of strings, or an
opaque caller-supplied object (transaction objects and the like), of
caller-chosen type `τ`. -/
inductive JParam (τ : Type) where
  | str (s : String) : JParam τ
  | strs (l : List String) : JParam τ
  | obj (t : τ) : JParam τ
deriving DecidableEq, Repr

/-- The request envelope built by every RPC facade operation. -/
structure RpcEnvelope (τ : Type) where
  jsonrpc : String
  method : String
  params : List (JParam τ)
  id : Nat
deriving DecidableEq, Repr

/-- What the RPC transport does with an envelope: yield a connection error
(`some e`) or a response. -/
def RpcTransport (τ ε ρ : Type) := RpcEnvelope τ → Option ε × RpcResponse ρ

/-- How an RPC promise settles. -/
inductive RpcOutcome (ε ρ : Type) where
  | rejectedTransport (e : ε) : RpcOutcome ε ρ
  | rejectedRpc (err : RpcError) : RpcOutcome ε ρ
  | resolved (v : ρ) : RpcOutcome ε ρ
deriving DecidableEq, Repr

/-- The callback `(e, r) => ...` shared verbatim by every RPC facade
operation: reject a truthy connection error `e` (here the logging argument
is the callback's own parameter `e`, so `verbose` logging is well formed and
the branch always reaches `reject`); otherwise reject a defined `r.error`;
otherwise resolve `r.result`.  `verbose` selects console output only (and in
`private.js` `sendTransaction` the logging is even unconditional); no branch
depends on it. -/
def rpcCallback {ε ρ : Type} (_verbose : Bool) (e : Option ε) (r : RpcResponse ρ) :
    RpcOutcome ε ρ :=
  match e with
  | some err => RpcOutcome.rejectedTransport err
  | none =>
      match r.error with
      | some rerr => RpcOutcome.rejectedRpc rerr
      | none => RpcOutcome.resolved r.result

/-- Send one envelope through the transport and classify the callback's
outcome; returns the envelope sent paired with the settlement. -/
def runRpc {τ ε ρ : Type} (env : RpcEnvelope τ) (verbose : Bool)
    (web3send : RpcTransport τ ε ρ) : RpcEnvelope τ × RpcOutcome ε ρ :=
  let r := web3send env
  (env, rpcCallback verbose r.1 r.2)

/-! ## `src/secretstore.js` — JSON-RPC facade and second HTTP session facade -/

namespace SecretstoreJs

variable {τ ε ρ : Type}

/-- `secretstore_signRawHash(account, pwd, add0x(hash))`. -/
def signRawHash (web3send : RpcTransport τ ε ρ) (account pwd hash : String)
    (verbose : Bool) : RpcEnvelope τ × RpcOutcome ε ρ :=
  runRpc { jsonrpc := "2.0", method := "secretstore_signRawHash",
           params := [JParam.str account, JParam.str pwd, JParam.str (add0x hash)],
           id := 1 } verbose web3send

/-- `secretstore_generateDocumentKey(account, pwd, serverKey)`. -/
def generateDocumentKey (web3send : RpcTransport τ ε ρ) (account pwd serverKey : String)
    (verbose : Bool) : RpcEnvelope τ × RpcOutcome ε ρ :=
  runRpc { jsonrpc := "2.0", method := "secretstore_generateDocumentKey",
           params := [JParam.str account, JParam.str pwd, JParam.str serverKey],
           id := 1 } verbose web3send

/-- `secretstore_encrypt(account, pwd, encryptedKey, hexDocument)`. -/
def encrypt (web3send : RpcTransport τ ε ρ) (account pwd encryptedKey hexDocument : String)
    (verbose : Bool) : RpcEnvelope τ × RpcOutcome ε ρ :=
  runRpc { jsonrpc := "2.0", method := "secretstore_encrypt",
           params := [JParam.str account, JParam.str pwd, JParam.str encryptedKey,
                      JParam.str hexDocument],
           id := 1 } verbose web3send

/-- `secretstore_decrypt(account, pwd, encryptedKey, encryptedDocument)`. -/
def decrypt (web3send : RpcTransport τ ε ρ) (account pwd encryptedKey encryptedDocument : String)
    (verbose : Bool) : RpcEnvelope τ × RpcOutcome ε ρ :=
  runRpc { jsonrpc := "2.0", method := "secretstore_decrypt",
           params := [JParam.str account, JParam.str pwd, JParam.str encryptedKey,
                      JParam.str encryptedDocument],
           id := 1 } verbose web3send

/-- `secretstore_shadowDecrypt(account, pwd, decryptedSecret, commonPoint,
decryptShadows, encryptedDocument)`. -/
def shadowDecrypt (web3send : RpcTransport τ ε ρ)
    (account pwd decryptedSecret commonPoint : String) (decryptShadows : List String)
    (encryptedDocument : String) (verbose : Bool) : RpcEnvelope τ × RpcOutcome ε ρ :=
  runRpc { jsonrpc := "2.0", method := "secretstore_shadowDecrypt",
           params := [JParam.str account, JParam.str pwd, JParam.str decryptedSecret,
                      JParam.str commonPoint, JParam.strs decryptShadows,
                      JParam.str encryptedDocument],
           id := 1 } verbose web3send

/-- `secretstore_serversSetHash(nodeIDs)`. -/
def serversSetHash (web3send : RpcTransport τ ε ρ) (nodeIDs : List String)
    (verbose : Bool) : RpcEnvelope τ × RpcOutcome ε ρ :=
  runRpc { jsonrpc := "2.0", method := "secretstore_serversSetHash",
           params := [JParam.strs nodeIDs],
           id := 1 } verbose web3send

/-- HTTP: identical to `SessionJs.generateServerKey` up to the error class
name `SSRequestError`. -/
def generateServerKey (url serverKeyID signedServerKeyID : String) (threshold : Int)
    (verbose : Bool) (client : HttpClient ε) : List ReqOptions × SessionOutcome ε :=
  runSession "SSRequestError" unquoteValue
    { url := url ++ "/shadow/" ++ remove0x (JsValue.str serverKeyID) ++ "/"
        ++ remove0x (JsValue.str signedServerKeyID) ++ "/" ++ toString threshold,
      method := "POST" } verbose client

/-- HTTP: identical to `SessionJs.generateServerAndDocumentKey` up to the
error class name. -/
def generateServerAndDocumentKey (url serverKeyID signedServerKeyID : String)
    (threshold : Int) (verbose : Bool) (client : HttpClient ε) :
    List ReqOptions × SessionOutcome ε :=
  runSession "SSRequestError" unquoteValue
    { url := url ++ "/" ++ remove0x (JsValue.str serverKeyID) ++ "/"
        ++ remove0x (JsValue.str signedServerKeyID) ++ "/" ++ toString threshold,
      method := "POST" } verbose client

/-- HTTP: identical to `SessionJs.shadowRetrieveDocumentKey` up to the error
class name. -/
def shadowRetrieveDocumentKey (url serverKeyID signedServerKeyID : String)
    (verbose : Bool) (client : HttpClient ε) : List ReqOptions × SessionOutcome ε :=
  runSession "SSRequestError" SessionValue.jsonOf
    { url := url ++ "/shadow/" ++ remove0x (JsValue.str serverKeyID) ++ "/"
        ++ remove0x (JsValue.str signedServerKeyID),
      method := "GET" } verbose client

/-- HTTP: identical to `SessionJs.retrieveDocumentKey` up to the error class
name. -/
def retrieveDocumentKey (url serverKeyID signedServerKeyID : String)
    (verbose : Bool) (client : HttpClient ε) : List ReqOptions × SessionOutcome ε :=
  runSession "SSRequestError" unquoteValue
    { url := url ++ "/" ++ remove0x (JsValue.str serverKeyID) ++ "/"
        ++ remove0x (JsValue.str signedServerKeyID),
      method := "GET" } verbose client

/-- HTTP: identical to `SessionJs.signSchnorr` up to the error class name;
`messageHash` is again concatenated as given. -/
def signSchnorr (url serverKeyID signedServerKeyID messageHash : String)
    (verbose : Bool) (client : HttpClient ε) : List ReqOptions × SessionOutcome ε :=
  runSession "SSRequestError" unquoteValue
    { url := url ++ "/schnorr/" ++ remove0x (JsValue.str serverKeyID) ++ "/"
        ++ remove0x (JsValue.str signedServerKeyID) ++ "/" ++ messageHash,
      method := "GET" } verbose client

/-- HTTP: identical to `SessionJs.signEcdsa` up to the error class name. -/
def signEcdsa (url serverKeyID signedServerKeyID messageHash : String)
    (verbose : Bool) (client : HttpClient ε) : List ReqOptions × SessionOutcome ε :=
  runSession "SSRequestError" unquoteValue
    { url := url ++ "/ecdsa/" ++ remove0x (JsValue.str serverKeyID) ++ "/"
        ++ remove0x (JsValue.str signedServerKeyID) ++ "/" ++ messageHash,
      method := "GET" } verbose client

/-- HTTP: identical to `SessionJs.storeDocumentKey` up to the error class
name. -/
def storeDocumentKey (url serverKeyID signedServerKeyID commonPoint encryptedPoint : String)
    (verbose : Bool) (client : HttpClient ε) : List ReqOptions × SessionOutcome ε :=
  runSession "SSRequestError" rawValue
    { url := url ++ "/shadow/" ++ remove0x (JsValue.str serverKeyID)
        ++ "/" ++ remove0x (JsValue.str signedServerKeyID)
        ++ "/" ++ remove0x (JsValue.str commonPoint)
        ++ "/" ++ remove0x (JsValue.str encryptedPoint),
      method := "POST" } verbose client

/-- HTTP: identical to `SessionJs.nodesSetChange` up to the error class
name. -/
def nodesSetChange (url : String) (nodeIDsNewSet : List String)
    (signatureOldSet signatureNewSet : String) (verbose : Bool)
    (client : HttpClient ε) : List ReqOptions × SessionOutcome ε :=
  runSession "SSRequestError" unquoteValue
    { url := url ++ "/admin/servers_set_change"
        ++ "/" ++ remove0x (JsValue.str signatureOldSet)
        ++ "/" ++ remove0x (JsValue.str signatureNewSet),
      method := "POST",
      reqBody := some (jsonStringify nodeIDsNewSet) } verbose client

end SecretstoreJs

/-! ## `src/private/private.js` — private-transaction JSON-RPC facade -/

namespace PrivateJs

variable {τ ε ρ : Type}

/-- `parity_composeTransaction(tx)`. -/
def composePublicTx (web3send : RpcTransport τ ε ρ) (tx : τ) (verbose : Bool) :
    RpcEnvelope τ × RpcOutcome ε ρ :=
  runRpc { jsonrpc := "2.0", method := "parity_composeTransaction",
           params := [JParam.obj tx],
           id := 1 } verbose web3send

/-- `private_composeDeploymentTransaction("latest", rawData, validators,
gasPrice)` (the source defaults `gasPrice` to `"0x0"`). -/
def composeDeploymentTx (web3send : RpcTransport τ ε ρ) (rawData : String)
    (validators : List String) (gasPrice : String) (verbose : Bool) :
    RpcEnvelope τ × RpcOutcome ε ρ :=
  runRpc { jsonrpc := "2.0", method := "private_composeDeploymentTransaction",
           params := [JParam.str "latest", JParam.str rawData,
                      JParam.strs validators, JParam.str gasPrice],
           id := 1 } verbose web3send

/-- `private_call("latest", tx)`. -/
def call (web3send : RpcTransport τ ε ρ) (tx : τ) (verbose : Bool) :
    RpcEnvelope τ × RpcOutcome ε ρ :=
  runRpc { jsonrpc := "2.0", method := "private_call",
           params := [JParam.str "latest", JParam.obj tx],
           id := 1 } verbose web3send

/-- `private_sendTransaction(tx)`.  Its logging ignores `verbose` (it logs
unconditionally), but all logged variables are declared, so settlement is
the shared classification all the same. -/
def sendTransaction (web3send : RpcTransport τ ε ρ) (tx : τ) (verbose : Bool) :
    RpcEnvelope τ × RpcOutcome ε ρ :=
  runRpc { jsonrpc := "2.0", method := "private_sendTransaction",
           params := [JParam.obj tx],
           id := 1 } verbose web3send

/-- `private_contractKey(address)`. -/
def contractKey (web3send : RpcTransport τ ε ρ) (address : String) (verbose : Bool) :
    RpcEnvelope τ × RpcOutcome ε ρ :=
  runRpc { jsonrpc := "2.0", method := "private_contractKey",
           params := [JParam.str address],
           id := 1 } verbose web3send

end PrivateJs

/-- Rename the class name of a rejected session error, leaving every other
outcome untouched.  The two HTTP facade modules differ exactly by this
renaming. -/
def renameTo {ε : Type} (newName : String) : SessionOutcome ε → SessionOutcome ε
  | SessionOutcome.rejectedSession err =>
      SessionOutcome.rejectedSession { err with name := newName }
  | o => o

/-! ## Helper lemmas -/

/-- Structure eta for strings, convenient in simp sets. -/
lemma mk_data (s : String) : String.mk s.data = s := rfl

/-- A list whose last element is known splits as its `dropLast` plus that
element. -/
lemma eq_dropLast_append_of_getLast? {α : Type} {l : List α} {a : α}
    (h : l.getLast? = some a) : l = l.dropLast ++ [a] := by
  induction l with
  | nil => simp at h
  | cons c cs ih =>
      cases cs with
      | nil => simp_all
      | cons d ds =>
          have h2 : (d :: ds).getLast? = some a := by
            simpa [List.getLast?_cons_cons] using h
          have h3 := ih h2
          simp [List.dropLast_cons₂]
          exact h3

/-- `remove0x` on a string that carries the `0x` prefix drops exactly that
prefix. -/
lemma remove0x_prefixed (t : String) : remove0x (JsValue.str ("0x" ++ t)) = t := by
  have h : ("0x" ++ t).data = '0' :: 'x' :: t.data := rfl
  simp [remove0x, h, mk_data]

/-- `remove0x` on a string that does not carry the `0x` prefix is the
identity. -/
lemma remove0x_unprefixed {s : String} (h : s.data.take 2 ≠ ['0', 'x']) :
    remove0x (JsValue.str s) = s := by
  simp [remove0x, h]

/-- `add0x` on a string already carrying the prefix is the identity. -/
lemma add0x_prefixed (t : String) : add0x ("0x" ++ t) = "0x" ++ t := by
  have h : ("0x" ++ t).data = '0' :: 'x' :: t.data := rfl
  simp [add0x, h]

/-- `add0x` on a string missing the prefix prepends it. -/
lemma add0x_unprefixed {s : String} (h : s.data.take 2 ≠ ['0', 'x']) :
    add0x s = "0x" ++ s := by
  simp [add0x, h]

/-- Unfolding `removeEnclosingDQuotes` on a string known to begin with a
double quote. -/
lemma unwrap_mk_quote (l : List Char) :
    removeEnclosingDQuotes (String.mk ('"' :: l)) =
      (if l.getLast? = some '"' ∧ l.dropLast.all (fun c => !jsLineTerminator c) then
        String.mk l.dropLast
      else String.mk ('"' :: l)) := rfl

/-! ## Claims about `src/utils.js` -/

/-- C8: `remove0x` maps `undefined` and `null` to the empty string; a string
carrying the two-character `0x` prefix loses exactly those two characters,
any other string is returned unchanged; in particular
`remove0x("0xABC") = "ABC"` and `remove0x("ABC") = "ABC"`. -/
theorem C8_remove0x_spec :
    remove0x JsValue.undefinedV = "" ∧ remove0x JsValue.nullV = ""
  ∧ (∀ t : String, remove0x (JsValue.str ("0x" ++ t)) = t)
  ∧ (∀ s : String, s.data.take 2 ≠ ['0', 'x'] → remove0x (JsValue.str s) = s)
  ∧ remove0x (JsValue.str "0xABC") = "ABC"
  ∧ remove0x (JsValue.str "ABC") = "ABC" :=
  ⟨rfl, rfl, remove0x_prefixed, fun _ h => remove0x_unprefixed h, by decide, by decide⟩

/-- Witness for C8 at the concrete unprefixed input `"ABC"`. -/
theorem C8_remove0x_witness : remove0x (JsValue.str "ABC") = "ABC" :=
  C8_remove0x_spec.2.2.2.1 "ABC" (by decide)

/-- C9: `add0x` is idempotent, keeps `0x`-prefixed strings unchanged, and
prepends `0x` to every other string; in particular `add0x("ABC") = "0xABC"`
and `add0x("0xABC") = "0xABC"`. -/
theorem C9_add0x_idempotent :
    (∀ s : String, add0x (add0x s) = add0x s)
  ∧ (∀ t : String, add0x ("0x" ++ t) = "0x" ++ t)
  ∧ (∀ s : String, s.data.take 2 ≠ ['0', 'x'] → add0x s = "0x" ++ s)
  ∧ add0x "ABC" = "0xABC" ∧ add0x "0xABC" = "0xABC" := by
  refine ⟨?_, add0x_prefixed, fun _ h => add0x_unprefixed h, by decide, by decide⟩
  intro s
  by_cases h : s.data.take 2 = ['0', 'x']
  · have hid : add0x s = s := by simp [add0x, h]
    rw [hid]
    exact hid
  · rw [add0x_unprefixed h, add0x_prefixed]

/-- Witness for C9 at the concrete unprefixed input `"ABC"`. -/
theorem C9_add0x_witness : add0x "ABC" = "0x" ++ "ABC" :=
  C9_add0x_idempotent.2.2.1 "ABC" (by decide)

/-- C7 (amended): `removeEnclosingDQuotes` maps a body consisting of exactly
one leading and one trailing double quote wrapping inner content free of
JavaScript line terminators to that inner content, and returns every other
body unchanged; `"foo"` quoted unwraps to `foo`, unquoted `foo` is kept, and
the greedy anchored pattern sends the quoted `a"b` to `a"b` (only the single
outermost pair is removed, in one non-recursive pass). -/
theorem C7_unwrap_characterization :
    (∀ inner : String, inner.data.all (fun c => !jsLineTerminator c) = true →
        removeEnclosingDQuotes ("\"" ++ inner ++ "\"") = inner)
  ∧ (∀ s : String,
        (¬ ∃ inner : String, inner.data.all (fun c => !jsLineTerminator c) = true ∧
            s = "\"" ++ inner ++ "\"") →
        removeEnclosingDQuotes s = s)
  ∧ removeEnclosingDQuotes "\"foo\"" = "foo"
  ∧ removeEnclosingDQuotes "foo" = "foo"
  ∧ removeEnclosingDQuotes "\"a\"b\"" = "a\"b" := by
  refine ⟨?_, ?_, by decide, by decide, by decide⟩
  · intro inner h
    have h1 : ("\"" ++ inner ++ "\"") = String.mk ('"' :: (inner.data ++ ['"'])) := rfl
    rw [h1, unwrap_mk_quote, List.getLast?_concat, List.dropLast_concat, if_pos ⟨rfl, h⟩]
  · intro s hno
    rw [removeEnclosingDQuotes.eq_def]
    split
    case _ rest heq =>
      split
      case isTrue hcond =>
        exfalso
        apply hno
        obtain ⟨h1, h2⟩ := hcond
        have hrest : rest = rest.dropLast ++ ['"'] := eq_dropLast_append_of_getLast? h1
        refine ⟨String.mk rest.dropLast, h2, ?_⟩
        have hdata : s.data = '"' :: (rest.dropLast ++ ['"']) := by
          rw [heq]
          exact congrArg (List.cons '"') hrest
        exact congrArg String.mk hdata
      case isFalse hcond => rfl
    case _ => rfl

/-- Witness for C7 at the concrete quoted input. -/
theorem C7_unwrap_witness : removeEnclosingDQuotes ("\"" ++ "xy" ++ "\"") = "xy" :=
  C7_unwrap_characterization.1 "xy" (by decide)

/-- C7 counterexample: the body made of one leading and one trailing double
quote wrapping a bare newline is returned unchanged — JavaScript's `.` does
not match a line terminator, so the claim's "arbitrary inner content" fails
on it. -/
theorem C7_counterexample :
    removeEnclosingDQuotes ("\"" ++ "\n" ++ "\"") = "\"" ++ "\n" ++ "\""
  ∧ ("\"" ++ "\n" ++ "\"" : String) ≠ "\n" := by decide

/-! ## Claims about the HTTP session layer -/

/-- The shared callback on a non-200 response rejects a fresh session error
wrapping that response, for either verbosity. -/
lemma sessionCallback_non200 {ε : Type} (errName : String)
    (succ : String → SessionValue) (v : Bool) (resp : HttpResponse) (b : String)
    (h : resp.statusCode ≠ 200) :
    sessionCallback errName succ v (none : Option ε) resp b =
      SessionOutcome.rejectedSession
        { message := "Request failed.", response := resp, name := errName } := by
  simp [sessionCallback, h]

/-- A session run against a client that answers with a non-200 response (and
no connection error) rejects the wrapping session error and issues exactly
one request. -/
lemma runSession_non200_pair {ε : Type} (errName : String)
    (succ : String → SessionValue) (opts : ReqOptions) (v : Bool)
    (resp : HttpResponse) (b : String) (h : resp.statusCode ≠ 200) :
    (runSession errName succ opts v (fun _ => ((none : Option ε), resp, b))).2 =
      SessionOutcome.rejectedSession
        { message := "Request failed.", response := resp, name := errName }
  ∧ (runSession errName succ opts v (fun _ => ((none : Option ε), resp, b))).1.length = 1 :=
  ⟨sessionCallback_non200 errName succ v resp b h, rfl⟩

/-- The shared callback with error class `SSRequestError` is the callback
with error class `SecretStoreSessionError` followed by a renaming of the
rejected session error. -/
lemma sessionCallback_rename {ε : Type} (succ : String → SessionValue) (v : Bool)
    (e : Option ε) (resp : HttpResponse) (b : String) :
    sessionCallback "SSRequestError" succ v e resp b =
      renameTo "SSRequestError" (sessionCallback "SecretStoreSessionError" succ v e resp b) := by
  cases e with
  | some err => cases v <;> simp [sessionCallback, renameTo]
  | none =>
      by_cases h : resp.statusCode ≠ 200
      · simp [sessionCallback, renameTo, h]
      · simp [sessionCallback, renameTo, h]

/-- A session run with error class `SSRequestError` issues the same request
and settles the same as the run with class `SecretStoreSessionError`, up to
the renaming of a rejected session error. -/
lemma runSession_rename {ε : Type} (succ : String → SessionValue)
    (opts : ReqOptions) (v : Bool) (client : HttpClient ε) :
    runSession "SSRequestError" succ opts v client =
      ((runSession "SecretStoreSessionError" succ opts v client).1,
        renameTo "SSRequestError" (runSession "SecretStoreSessionError" succ opts v client).2) := by
  simp only [runSession]
  exact congrArg (Prod.mk [opts]) (sessionCallback_rename succ v _ _ _)

/-- C3 (amended): for every HTTP session facade operation in both modules,
if the injected HTTP client yields a response whose status code is not 200
(and no connection error), the promise rejects with a session error object
whose `response` field is that response — so for status 500 the rejection
value satisfies `.response.statusCode = 500` — and whose message is
"Request failed."; exactly one request is issued (no retry).  The response
body and the constructed request options are passed to diagnostic logging
only and are not attached to the rejection value. -/
theorem C3_non200_rejects_with_response :
    ∀ (ε : Type) (resp : HttpResponse) (b : String), resp.statusCode ≠ 200 →
    ∀ (url sk ssk mh cp ep : String) (t : Int) (nodes : List String) (v : Bool),
      ((SessionJs.generateServerKey url sk ssk t v
          (fun _ => ((none : Option ε), resp, b))).2 =
        SessionOutcome.rejectedSession
          { message := "Request failed.", response := resp, name := "SecretStoreSessionError" }
        ∧ (SessionJs.generateServerKey url sk ssk t v
            (fun _ => ((none : Option ε), resp, b))).1.length = 1)
    ∧ ((SessionJs.generateServerAndDocumentKey url sk ssk t v
          (fun _ => ((none : Option ε), resp, b))).2 =
        SessionOutcome.rejectedSession
          { message := "Request failed.", response := resp, name := "SecretStoreSessionError" }
        ∧ (SessionJs.generateServerAndDocumentKey url sk ssk t v
            (fun _ => ((none : Option ε), resp, b))).1.length = 1)
    ∧ ((SessionJs.shadowRetrieveDocumentKey url sk ssk v
          (fun _ => ((none : Option ε), resp, b))).2 =
        SessionOutcome.rejectedSession
          { message := "Request failed.", response := resp, name := "SecretStoreSessionError" }
        ∧ (SessionJs.shadowRetrieveDocumentKey url sk ssk v
            (fun _ => ((none : Option ε), resp, b))).1.length = 1)
    ∧ ((SessionJs.retrieveDocumentKey url sk ssk v
          (fun _ => ((none : Option ε), resp, b))).2 =
        SessionOutcome.rejectedSession
          { message := "Request failed.", response := resp, name := "SecretStoreSessionError" }
        ∧ (SessionJs.retrieveDocumentKey url sk ssk v
            (fun _ => ((none : Option ε), resp, b))).1.length = 1)
    ∧ ((SessionJs.signSchnorr url sk ssk mh v
          (fun _ => ((none : Option ε), resp, b))).2 =
        SessionOutcome.rejectedSession
          { message := "Request failed.", response := resp, name := "SecretStoreSessionError" }
        ∧ (SessionJs.signSchnorr url sk ssk mh v
            (fun _ => ((none : Option ε), resp, b))).1.length = 1)
    ∧ ((SessionJs.signEcdsa url sk ssk mh v
          (fun _ => ((none : Option ε), resp, b))).2 =
        SessionOutcome.rejectedSession
          { message := "Request failed.", response := resp, name := "SecretStoreSessionError" }
        ∧ (SessionJs.signEcdsa url sk ssk mh v
            (fun _ => ((none : Option ε), resp, b))).1.length = 1)
    ∧ ((SessionJs.storeDocumentKey url sk ssk cp ep v
          (fun _ => ((none : Option ε), resp, b))).2 =
        SessionOutcome.rejectedSession
          { message := "Request failed.", response := resp, name := "SecretStoreSessionError" }
        ∧ (SessionJs.storeDocumentKey url sk ssk cp ep v
            (fun _ => ((none : Option ε), resp, b))).1.length = 1)
    ∧ ((SessionJs.nodesSetChange url nodes sk ssk v
          (fun _ => ((none : Option ε), resp, b))).2 =
        SessionOutcome.rejectedSession
          { message := "Request failed.", response := resp, name := "SecretStoreSessionError" }
        ∧ (SessionJs.nodesSetChange url nodes sk ssk v
            (fun _ => ((none : Option ε), resp, b))).1.length = 1)
    ∧ ((SecretstoreJs.generateServerKey url sk ssk t v
          (fun _ => ((none : Option ε), resp, b))).2 =
        SessionOutcome.rejectedSession
          { message := "Request failed.", response := resp, name := "SSRequestError" }
        ∧ (SecretstoreJs.generateServerKey url sk ssk t v
            (fun _ => ((none : Option ε), resp, b))).1.length = 1)
    ∧ ((SecretstoreJs.generateServerAndDocumentKey url sk ssk t v
          (fun _ => ((none : Option ε), resp, b))).2 =
        SessionOutcome.rejectedSession
          { message := "Request failed.", response := resp, name := "SSRequestError" }
        ∧ (SecretstoreJs.generateServerAndDocumentKey url sk ssk t v
            (fun _ => ((none : Option ε), resp, b))).1.length = 1)
    ∧ ((SecretstoreJs.shadowRetrieveDocumentKey url sk ssk v
          (fun _ => ((none : Option ε), resp, b))).2 =
        SessionOutcome.rejectedSession
          { message := "Request failed.", response := resp, name := "SSRequestError" }
        ∧ (SecretstoreJs.shadowRetrieveDocumentKey url sk ssk v
            (fun _ => ((none : Option ε), resp, b))).1.length = 1)
    ∧ ((SecretstoreJs.retrieveDocumentKey url sk ssk v
          (fun _ => ((none : Option ε), resp, b))).2 =
        SessionOutcome.rejectedSession
          { message := "Request failed.", response := resp, name := "SSRequestError" }
        ∧ (SecretstoreJs.retrieveDocumentKey url sk ssk v
            (fun _ => ((none : Option ε), resp, b))).1.length = 1)
    ∧ ((SecretstoreJs.signSchnorr url sk ssk mh v
          (fun _ => ((none : Option ε), resp, b))).2 =
        SessionOutcome.rejectedSession
          { message := "Request failed.", response := resp, name := "SSRequestError" }
        ∧ (SecretstoreJs.signSchnorr url sk ssk mh v
            (fun _ => ((none : Option ε), resp, b))).1.length = 1)
    ∧ ((SecretstoreJs.signEcdsa url sk ssk mh v
          (fun _ => ((none : Option ε), resp, b))).2 =
        SessionOutcome.rejectedSession
          { message := "Request failed.", response := resp, name := "SSRequestError" }
        ∧ (SecretstoreJs.signEcdsa url sk ssk mh v
            (fun _ => ((none : Option ε), resp, b))).1.length = 1)
    ∧ ((SecretstoreJs.storeDocumentKey url sk ssk cp ep v
          (fun _ => ((none : Option ε), resp, b))).2 =
        SessionOutcome.rejectedSession
          { message := "Request failed.", response := resp, name := "SSRequestError" }
        ∧ (SecretstoreJs.storeDocumentKey url sk ssk cp ep v
            (fun _ => ((none : Option ε), resp, b))).1.length = 1)
    ∧ ((SecretstoreJs.nodesSetChange url nodes sk ssk v
          (fun _ => ((none : Option ε), resp, b))).2 =
        SessionOutcome.rejectedSession
          { message := "Request failed.", response := resp, name := "SSRequestError" }
        ∧ (SecretstoreJs.nodesSetChange url nodes sk ssk v
            (fun _ => ((none : Option ε), resp, b))).1.length = 1) := by
  intro ε resp b h url sk ssk mh cp ep t nodes v
  refine ⟨?_, ?_, ?_, ?_, ?_, ?_, ?_, ?_, ?_, ?_, ?_, ?_, ?_, ?_, ?_, ?_⟩ <;>
    simp only [SessionJs.generateServerKey, SessionJs.generateServerAndDocumentKey,
      SessionJs.shadowRetrieveDocumentKey, SessionJs.retrieveDocumentKey,
      SessionJs.signSchnorr, SessionJs.signEcdsa, SessionJs.storeDocumentKey,
      SessionJs.nodesSetChange, SecretstoreJs.generateServerKey,
      SecretstoreJs.generateServerAndDocumentKey, SecretstoreJs.shadowRetrieveDocumentKey,
      SecretstoreJs.retrieveDocumentKey, SecretstoreJs.signSchnorr,
      SecretstoreJs.signEcdsa, SecretstoreJs.storeDocumentKey,
      SecretstoreJs.nodesSetChange] <;>
    exact runSession_non200_pair _ _ _ _ _ _ h

/-- Witness for C3: the server key generation session against a client that
answers 500; the rejection value's response field carries status code 500. -/
theorem C3_non200_witness :
    (SessionJs.generateServerKey "u" "0xaa" "0xbb" 1 true
        (fun _ => ((none : Option String),
          { statusCode := 500, statusMessage := "Internal Server Error" }, "oops"))).2 =
      SessionOutcome.rejectedSession
        { message := "Request failed.",
          response := { statusCode := 500, statusMessage := "Internal Server Error" },
          name := "SecretStoreSessionError" } :=
  ((C3_non200_rejects_with_response String
      { statusCode := 500, statusMessage := "Internal Server Error" } "oops"
      (by decide) "u" "0xaa" "0xbb" "" "" "" 1 [] true).1).1

/-- C3 counterexample: with a 500 response, runs of the server key
generation session that differ only in the response body — and even runs
issuing a completely different request URL — reject with identical error
values, so the rejection cannot carry the body or the constructed request
options as the claim states; it carries the response (status code and
status message) only. -/
theorem C3_counterexample :
    (SessionJs.generateServerKey "u" "0xaa" "0xbb" 1 true
        (fun _ => ((none : Option String),
          { statusCode := 500, statusMessage := "ISE" }, "body one"))).2 =
      (SessionJs.generateServerKey "u" "0xaa" "0xbb" 1 true
        (fun _ => ((none : Option String),
          { statusCode := 500, statusMessage := "ISE" }, "body two"))).2
  ∧ (SessionJs.generateServerKey "other" "0xcc" "0xdd" 2 true
        (fun _ => ((none : Option String),
          { statusCode := 500, statusMessage := "ISE" }, "body one"))).2 =
      (SessionJs.generateServerKey "u" "0xaa" "0xbb" 1 true
        (fun _ => ((none : Option String),
          { statusCode := 500, statusMessage := "ISE" }, "body one"))).2
  ∧ (SessionJs.generateServerKey "u" "0xaa" "0xbb" 1 true
        (fun _ => ((none : Option String),
          { statusCode := 500, statusMessage := "ISE" }, "body one"))).2 =
      SessionOutcome.rejectedSession
        { message := "Request failed.",
          response := { statusCode := 500, statusMessage := "ISE" },
          name := "SecretStoreSessionError" }
  ∧ ("body one" : String) ≠ "body two"
  ∧ (SessionJs.generateServerKey "other" "0xcc" "0xdd" 2 true
        (fun _ => ((none : Option String),
          { statusCode := 500, statusMessage := "ISE" }, "body one"))).1 ≠
      (SessionJs.generateServerKey "u" "0xaa" "0xbb" 1 true
        (fun _ => ((none : Option String),
          { statusCode := 500, statusMessage := "ISE" }, "body one"))).1 := by
  decide

/-- C1 (code bug): in the HTTP facades the connection-error branch logs with
`utils.logError(e)` although the callback parameter is named `error`, so with
`verbose = true` (the default) the read of the undeclared `e` throws a
`ReferenceError` out of the callback and the promise never rejects; only
with `verbose = false` is the connection error rejected identity-preserving,
as the claim demands for every verbosity.  The JSON-RPC facades, whose
callback parameter really is `e`, do reject the error itself. -/
theorem C1_http_error_verbose_eval :
    (SessionJs.generateServerKey "u" "0xaa" "0xbb" 1 true
        (fun _ => (some "ECONNREFUSED", { statusCode := 0, statusMessage := "" }, ""))).2 =
      (SessionOutcome.callbackThrewReferenceError : SessionOutcome String)
  ∧ (SessionJs.generateServerKey "u" "0xaa" "0xbb" 1 false
        (fun _ => (some "ECONNREFUSED", { statusCode := 0, statusMessage := "" }, ""))).2 =
      SessionOutcome.rejectedTransport "ECONNREFUSED"
  ∧ (SecretstoreJs.signRawHash
        ((fun _ => (some "ECONNREFUSED", RpcResponse.mk none "r")) :
          RpcTransport Unit String String) "acc" "pw" "ab" true).2 =
      RpcOutcome.rejectedTransport "ECONNREFUSED" := by
  decide

/-- C2 (code bug): on the connection-error path of the HTTP facades the
verbose flag changes the outcome, not just console output: with
`verbose = false` the promise rejects with the transport error, with
`verbose = true` the callback throws a `ReferenceError` (undeclared `e`) and
the promise never settles. -/
theorem C2_verbose_interference_eval :
    (SessionJs.retrieveDocumentKey "u" "0xaa" "0xbb" true
        (fun _ => (some "ETIMEDOUT", { statusCode := 0, statusMessage := "" }, ""))).2 ≠
      (SessionJs.retrieveDocumentKey "u" "0xaa" "0xbb" false
        (fun _ => ((some "ETIMEDOUT" : Option String),
          { statusCode := 0, statusMessage := "" }, ""))).2
  ∧ (SessionJs.retrieveDocumentKey "u" "0xaa" "0xbb" false
        (fun _ => ((some "ETIMEDOUT" : Option String),
          { statusCode := 0, statusMessage := "" }, ""))).2 =
      SessionOutcome.rejectedTransport "ETIMEDOUT"
  ∧ (SessionJs.retrieveDocumentKey "u" "0xaa" "0xbb" true
        (fun _ => ((some "ETIMEDOUT" : Option String),
          { statusCode := 0, statusMessage := "" }, ""))).2 =
      SessionOutcome.callbackThrewReferenceError := by
  decide

/-- C5: the server key generation session with `serverKeyID = "0xaa"`,
`signedServerKeyID = "0xbb"`, `threshold = 1` issues exactly one POST whose
URL is the base URL concatenated with `/shadow/aa/bb/1` (both IDs
de-prefixed, the threshold appended unmodified), and an HTTP 200 response
with body `"0xdeadbeef"` (quotes included) resolves to `0xdeadbeef` with the
quotes removed — for either verbosity. -/
theorem C5_generateServerKey_scenario :
    ∀ verbose : Bool,
      SessionJs.generateServerKey "u" "0xaa" "0xbb" 1 verbose
          (fun _ => ((none : Option String),
            { statusCode := 200, statusMessage := "OK" }, "\"0xdeadbeef\"")) =
        ([{ url := "u" ++ "/shadow/aa/bb/1", method := "POST", reqBody := none }],
          SessionOutcome.resolved (SessionValue.str "0xdeadbeef")) := by
  intro verbose
  cases verbose <;> decide

/-- C6 counterexample: the Schnorr signing session does not de-prefix the
`messageHash` parameter — with `messageHash = "0xff"` the issued GET URL
keeps the `0x` where the claim demands the de-prefixed `ff`. -/
theorem C6_counterexample :
    (SessionJs.signSchnorr "u" "0xaa" "0xbb" "0xff" true
        (fun _ => ((none : Option String),
          { statusCode := 200, statusMessage := "OK" }, "\"s\""))).1 =
      [{ url := "u/schnorr/aa/bb/0xff", method := "GET", reqBody := none }]
  ∧ ("u/schnorr/aa/bb/0xff" : String) ≠ "u/schnorr/aa/bb/ff" := by
  decide

/-- C6 (amended): every hex parameter placed into a session URL path is
de-prefixed except `messageHash`, which the Schnorr and ECDSA signing
operations concatenate as given: the signing GET URLs have the shapes
`/schnorr/<serverKeyID>/<signedServerKeyID>/<messageHash>` and
`/ecdsa/<serverKeyID>/<signedServerKeyID>/<messageHash>` with the first two
segments de-prefixed and the message hash verbatim; the remaining six
session operations de-prefix all their hex path parameters. -/
theorem C6_url_shapes :
    ∀ (ε : Type) (client : HttpClient ε) (url a b mh cp ep : String) (t : Int)
      (nodes : List String) (v : Bool),
      (SessionJs.generateServerKey url ("0x" ++ a) ("0x" ++ b) t v client).1 =
        [{ url := url ++ "/shadow/" ++ a ++ "/" ++ b ++ "/" ++ toString t,
           method := "POST", reqBody := none }]
    ∧ (SessionJs.generateServerAndDocumentKey url ("0x" ++ a) ("0x" ++ b) t v client).1 =
        [{ url := url ++ "/" ++ a ++ "/" ++ b ++ "/" ++ toString t,
           method := "POST", reqBody := none }]
    ∧ (SessionJs.shadowRetrieveDocumentKey url ("0x" ++ a) ("0x" ++ b) v client).1 =
        [{ url := url ++ "/shadow/" ++ a ++ "/" ++ b, method := "GET", reqBody := none }]
    ∧ (SessionJs.retrieveDocumentKey url ("0x" ++ a) ("0x" ++ b) v client).1 =
        [{ url := url ++ "/" ++ a ++ "/" ++ b, method := "GET", reqBody := none }]
    ∧ (SessionJs.signSchnorr url ("0x" ++ a) ("0x" ++ b) mh v client).1 =
        [{ url := url ++ "/schnorr/" ++ a ++ "/" ++ b ++ "/" ++ mh,
           method := "GET", reqBody := none }]
    ∧ (SessionJs.signEcdsa url ("0x" ++ a) ("0x" ++ b) mh v client).1 =
        [{ url := url ++ "/ecdsa/" ++ a ++ "/" ++ b ++ "/" ++ mh,
           method := "GET", reqBody := none }]
    ∧ (SessionJs.storeDocumentKey url ("0x" ++ a) ("0x" ++ b) ("0x" ++ cp) ("0x" ++ ep)
          v client).1 =
        [{ url := url ++ "/shadow/" ++ a ++ "/" ++ b ++ "/" ++ cp ++ "/" ++ ep,
           method := "POST", reqBody := none }]
    ∧ (SessionJs.nodesSetChange url nodes ("0x" ++ a) ("0x" ++ b) v client).1 =
        [{ url := url ++ "/admin/servers_set_change" ++ "/" ++ a ++ "/" ++ b,
           method := "POST", reqBody := some (jsonStringify nodes) }] := by
  intro ε client url a b mh cp ep t nodes v
  refine ⟨?_, ?_, ?_, ?_, ?_, ?_, ?_, ?_⟩ <;>
    simp [SessionJs.generateServerKey, SessionJs.generateServerAndDocumentKey,
      SessionJs.shadowRetrieveDocumentKey, SessionJs.retrieveDocumentKey,
      SessionJs.signSchnorr, SessionJs.signEcdsa, SessionJs.storeDocumentKey,
      SessionJs.nodesSetChange, runSession, remove0x_prefixed]

/-! ## Claims about the JSON-RPC facades -/

/-- C4: for every JSON-RPC facade operation (the six Secret Store RPC
operations and the five private-transaction operations), when the transport
yields no connection error, a response envelope with a defined error field
rejects with exactly that error object (code and message preserved, as in
the concrete `code = -32000`, `message = "x"` instance), and an envelope
with an undefined error field resolves with the result field verbatim — the
result type is a parameter, so the layer cannot inspect its structure. -/
theorem C4_rpc_envelope_dispatch :
    ∀ (τ ε ρ : Type) (err : RpcError) (res : ρ) (v : Bool)
      (a b c d f : String) (xs : List String) (tx : τ),
      (SecretstoreJs.signRawHash
          ((fun _ => (none, RpcResponse.mk (some err) res)) : RpcTransport τ ε ρ)
          a b c v).2 = RpcOutcome.rejectedRpc err
    ∧ (SecretstoreJs.signRawHash
          ((fun _ => (none, RpcResponse.mk none res)) : RpcTransport τ ε ρ)
          a b c v).2 = RpcOutcome.resolved res
    ∧ (SecretstoreJs.generateDocumentKey
          ((fun _ => (none, RpcResponse.mk (some err) res)) : RpcTransport τ ε ρ)
          a b c v).2 = RpcOutcome.rejectedRpc err
    ∧ (SecretstoreJs.generateDocumentKey
          ((fun _ => (none, RpcResponse.mk none res)) : RpcTransport τ ε ρ)
          a b c v).2 = RpcOutcome.resolved res
    ∧ (SecretstoreJs.encrypt
          ((fun _ => (none, RpcResponse.mk (some err) res)) : RpcTransport τ ε ρ)
          a b c d v).2 = RpcOutcome.rejectedRpc err
    ∧ (SecretstoreJs.encrypt
          ((fun _ => (none, RpcResponse.mk none res)) : RpcTransport τ ε ρ)
          a b c d v).2 = RpcOutcome.resolved res
    ∧ (SecretstoreJs.decrypt
          ((fun _ => (none, RpcResponse.mk (some err) res)) : RpcTransport τ ε ρ)
          a b c d v).2 = RpcOutcome.rejectedRpc err
    ∧ (SecretstoreJs.decrypt
          ((fun _ => (none, RpcResponse.mk none res)) : RpcTransport τ ε ρ)
          a b c d v).2 = RpcOutcome.resolved res
    ∧ (SecretstoreJs.shadowDecrypt
          ((fun _ => (none, RpcResponse.mk (some err) res)) : RpcTransport τ ε ρ)
          a b c d xs f v).2 = RpcOutcome.rejectedRpc err
    ∧ (SecretstoreJs.shadowDecrypt
          ((fun _ => (none, RpcResponse.mk none res)) : RpcTransport τ ε ρ)
          a b c d xs f v).2 = RpcOutcome.resolved res
    ∧ (SecretstoreJs.serversSetHash
          ((fun _ => (none, RpcResponse.mk (some err) res)) : RpcTransport τ ε ρ)
          xs v).2 = RpcOutcome.rejectedRpc err
    ∧ (SecretstoreJs.serversSetHash
          ((fun _ => (none, RpcResponse.mk none res)) : RpcTransport τ ε ρ)
          xs v).2 = RpcOutcome.resolved res
    ∧ (PrivateJs.composePublicTx
          ((fun _ => (none, RpcResponse.mk (some err) res)) : RpcTransport τ ε ρ)
          tx v).2 = RpcOutcome.rejectedRpc err
    ∧ (PrivateJs.composePublicTx
          ((fun _ => (none, RpcResponse.mk none res)) : RpcTransport τ ε ρ)
          tx v).2 = RpcOutcome.resolved res
    ∧ (PrivateJs.composeDeploymentTx
          ((fun _ => (none, RpcResponse.mk (some err) res)) : RpcTransport τ ε ρ)
          a xs b v).2 = RpcOutcome.rejectedRpc err
    ∧ (PrivateJs.composeDeploymentTx
          ((fun _ => (none, RpcResponse.mk none res)) : RpcTransport τ ε ρ)
          a xs b v).2 = RpcOutcome.resolved res
    ∧ (PrivateJs.call
          ((fun _ => (none, RpcResponse.mk (some err) res)) : RpcTransport τ ε ρ)
          tx v).2 = RpcOutcome.rejectedRpc err
    ∧ (PrivateJs.call
          ((fun _ => (none, RpcResponse.mk none res)) : RpcTransport τ ε ρ)
          tx v).2 = RpcOutcome.resolved res
    ∧ (PrivateJs.sendTransaction
          ((fun _ => (none, RpcResponse.mk (some err) res)) : RpcTransport τ ε ρ)
          tx v).2 = RpcOutcome.rejectedRpc err
    ∧ (PrivateJs.sendTransaction
          ((fun _ => (none, RpcResponse.mk none res)) : RpcTransport τ ε ρ)
          tx v).2 = RpcOutcome.resolved res
    ∧ (PrivateJs.contractKey
          ((fun _ => (none, RpcResponse.mk (some err) res)) : RpcTransport τ ε ρ)
          a v).2 = RpcOutcome.rejectedRpc err
    ∧ (PrivateJs.contractKey
          ((fun _ => (none, RpcResponse.mk none res)) : RpcTransport τ ε ρ)
          a v).2 = RpcOutcome.resolved res
    ∧ (SecretstoreJs.signRawHash
          ((fun _ => (none, RpcResponse.mk (some (RpcError.mk (-32000) "x")) "r")) :
            RpcTransport Unit Unit String)
          "acc" "pw" "ab" true).2 = RpcOutcome.rejectedRpc (RpcError.mk (-32000) "x") := by
  intro τ ε ρ err res v a b c d f xs tx
  exact ⟨rfl, rfl, rfl, rfl, rfl, rfl, rfl, rfl, rfl, rfl, rfl, rfl, rfl, rfl, rfl, rfl,
    rfl, rfl, rfl, rfl, rfl, rfl, rfl⟩

/-- C10: each of the eight HTTP session operations exported by both
`secretstore.js` and `secretstore/session.js` is behaviourally equivalent to
its twin: for identical arguments and identical injected HTTP client
behaviour they build the same request options and settle identically, except
that a non-200 rejection's error carries the class name `SSRequestError` in
`secretstore.js` where `session.js` uses `SecretStoreSessionError` (the
`renameTo` adjustment below). -/
theorem C10_module_equivalence :
    ∀ (ε : Type) (client : HttpClient ε) (url sk ssk mh cp ep : String) (t : Int)
      (nodes : List String) (v : Bool),
      SecretstoreJs.generateServerKey url sk ssk t v client =
        ((SessionJs.generateServerKey url sk ssk t v client).1,
          renameTo "SSRequestError" (SessionJs.generateServerKey url sk ssk t v client).2)
    ∧ SecretstoreJs.generateServerAndDocumentKey url sk ssk t v client =
        ((SessionJs.generateServerAndDocumentKey url sk ssk t v client).1,
          renameTo "SSRequestError"
            (SessionJs.generateServerAndDocumentKey url sk ssk t v client).2)
    ∧ SecretstoreJs.storeDocumentKey url sk ssk cp ep v client =
        ((SessionJs.storeDocumentKey url sk ssk cp ep v client).1,
          renameTo "SSRequestError" (SessionJs.storeDocumentKey url sk ssk cp ep v client).2)
    ∧ SecretstoreJs.retrieveDocumentKey url sk ssk v client =
        ((SessionJs.retrieveDocumentKey url sk ssk v client).1,
          renameTo "SSRequestError" (SessionJs.retrieveDocumentKey url sk ssk v client).2)
    ∧ SecretstoreJs.shadowRetrieveDocumentKey url sk ssk v client =
        ((SessionJs.shadowRetrieveDocumentKey url sk ssk v client).1,
          renameTo "SSRequestError"
            (SessionJs.shadowRetrieveDocumentKey url sk ssk v client).2)
    ∧ SecretstoreJs.signSchnorr url sk ssk mh v client =
        ((SessionJs.signSchnorr url sk ssk mh v client).1,
          renameTo "SSRequestError" (SessionJs.signSchnorr url sk ssk mh v client).2)
    ∧ SecretstoreJs.signEcdsa url sk ssk mh v client =
        ((SessionJs.signEcdsa url sk ssk mh v client).1,
          renameTo "SSRequestError" (SessionJs.signEcdsa url sk ssk mh v client).2)
    ∧ SecretstoreJs.nodesSetChange url nodes sk ssk v client =
        ((SessionJs.nodesSetChange url nodes sk ssk v client).1,
          renameTo "SSRequestError" (SessionJs.nodesSetChange url nodes sk ssk v client).2) := by
  intro ε client url sk ssk mh cp ep t nodes v
  refine ⟨?_, ?_, ?_, ?_, ?_, ?_, ?_, ?_⟩ <;>
    simp only [SecretstoreJs.generateServerKey, SessionJs.generateServerKey,
      SecretstoreJs.generateServerAndDocumentKey, SessionJs.generateServerAndDocumentKey,
      SecretstoreJs.storeDocumentKey, SessionJs.storeDocumentKey,
      SecretstoreJs.retrieveDocumentKey, SessionJs.retrieveDocumentKey,
      SecretstoreJs.shadowRetrieveDocumentKey, SessionJs.shadowRetrieveDocumentKey,
      SecretstoreJs.signSchnorr, SessionJs.signSchnorr,
      SecretstoreJs.signEcdsa, SessionJs.signEcdsa,
      SecretstoreJs.nodesSetChange, SessionJs.nodesSetChange] <;>
    exact runSession_rename _ _ _ _
